import Mathlib

/-!
Verification of the POS backend order normalization and sync pipeline.

Shallow embedding conventions:
- JavaScript numbers are modeled as exact rationals (`Rat`); every numeric
  operation appearing in the verified claims is exact, so no rounding model
  is needed.
- JavaScript strings that may be `undefined` are modeled as `String` with the
  empty string standing for the absent value; this is faithful because the
  source only ever consumes such fields through truthiness tests (`x || d`,
  `x ? _ : _`), under which `undefined` and `""` behave identically.
- Genuinely structural optionality (a possibly-missing metadata list, a
  possibly-null customer object) is modeled with `Option`.
- `JSON.stringify` applied to the fabric-component snapshot and to the
  normalized line items is modeled by keeping the parsed structure itself:
  the serialization is injective and no claim inspects the raw text.
- Remote I/O is modeled by an explicit secondary-store state (a list of rows)
  plus an environment of failure flags; a thrown-and-caught request error is
  the corresponding flag being set.
-/

/-- JavaScript `a || b` for strings under the empty-string-as-absent convention. -/
def jsOr (s d : String) : String := if s = "" then d else s

/-- JavaScript `a || b` for numbers (0 is falsy). -/
def jsOrQ (a b : Rat) : Rat := if a = 0 then b else a

/-! ## Cart-side data (input of `buildWooOrderPayload`, backend/orderUtils.js) -/

/-- A fabric component on a cart item; the source reads both snake_case and
camelCase spellings with fallback, so both are carried. -/
structure CartComponent where
  fabric_id : String := ""
  fabricId : String := ""
  fabric_name : String := ""
  fabricName : String := ""
  warehouse_id : String := ""
  warehouseId : String := ""
  warehouse_name : String := ""
  warehouseName : String := ""
  meters_per_unit : Rat := 0
  metersPerUnit : Rat := 0
deriving Repr, DecidableEq

structure CartItem where
  product_id : Int
  variation_id : Int := 0
  qty : Rat
  fms_components : List CartComponent := []
deriving Repr, DecidableEq

structure Customer where
  first_name : String := ""
  last_name : String := ""
  phone : String := ""
  email : String := ""
  address_1 : String := ""
  address_2 : String := ""
  city : String := ""
  state : String := ""
  postcode : String := ""
  country : String := ""
  woo_customer_id : Int := 0
deriving Repr, DecidableEq

structure Charges where
  alteration : Rat := 0
  courier : Rat := 0
  other : Rat := 0
deriving Repr, DecidableEq

structure CartData where
  items : List CartItem
  customer : Option Customer := none
  couponCode : String := ""
  notes : String := ""
  measurements : String := ""
  orderType : String := ""
  charges : Charges := {}
  paymentMethod : String := ""
deriving Repr, DecidableEq

/-! ## Payload-side data (output of `buildWooOrderPayload`) -/

/-- One entry of the serialized `_hr_fms_components` snapshot. -/
structure SnapComponent where
  fabric_id : String
  fabric_name : String
  warehouse_id : String
  warehouse_name : String
  meters_per_unit : Rat
  meters_total : Rat
deriving Repr, DecidableEq

/-- A line-item metadata entry; its value is the parsed form of the
`JSON.stringify(snapshot)` string the source stores. -/
structure ItemMeta where
  key : String
  value : List SnapComponent
deriving Repr, DecidableEq

structure PayloadLineItem where
  product_id : Int
  variation_id : Int
  quantity : Rat
  meta_data : Option (List ItemMeta) := none
deriving Repr, DecidableEq

structure Billing where
  first_name : String
  last_name : String
  phone : String
  address_1 : String
  address_2 : String := ""
  city : String
  state : String := ""
  postcode : String := ""
  country : String
  email : Option String := none
deriving Repr, DecidableEq

/-- An order-level metadata entry (string-valued on this path). -/
structure MetaEntry where
  key : String
  value : String
deriving Repr, DecidableEq

/-- A payload fee line; `total` is emitted as `String(x)` on the wire and is
modeled by its numeric value. -/
structure PayloadFeeLine where
  name : String
  total : Rat
  tax_status : String
deriving Repr, DecidableEq

structure PayloadShippingLine where
  method_id : String
  method_title : String
  total : Rat
deriving Repr, DecidableEq

structure PayloadCouponLine where
  code : String
deriving Repr, DecidableEq

structure WooOrderPayload where
  status : String
  customer_id : Int
  payment_method : String
  payment_method_title : String
  set_paid : Bool
  billing : Billing
  shipping : Billing
  line_items : List PayloadLineItem
  coupon_lines : List PayloadCouponLine
  fee_lines : List PayloadFeeLine
  shipping_lines : List PayloadShippingLine
  customer_note : String
  meta_data : List MetaEntry
deriving Repr, DecidableEq

/-- The per-item FMS snapshot computed inside `buildWooOrderPayload`:
`item.fms_components.map(comp => ...)` with the snake/camel fallback chains. -/
def fmsSnapshot (item : CartItem) : List SnapComponent :=
  item.fms_components.map fun comp =>
    { fabric_id := jsOr comp.fabric_id (jsOr comp.fabricId "")
      fabric_name := jsOr comp.fabric_name (jsOr comp.fabricName comp.fabric_id)
      warehouse_id := jsOr comp.warehouse_id (jsOr comp.warehouseId "1")
      warehouse_name := jsOr comp.warehouse_name (jsOr comp.warehouseName "Main Warehouse")
      meters_per_unit := jsOrQ comp.meters_per_unit (jsOrQ comp.metersPerUnit 0)
      meters_total := jsOrQ comp.meters_per_unit (jsOrQ comp.metersPerUnit 0) * item.qty }

/-- One payload line item, with the FMS snapshot attached as metadata when the
component list is non-empty (the source guards on `Array.isArray` and
`length > 0`; every falsy case is the empty list here). -/
def buildLineItem (item : CartItem) : PayloadLineItem :=
  { product_id := item.product_id
    variation_id := item.variation_id
    quantity := item.qty
    meta_data :=
      if item.fms_components.isEmpty then none
      else some [{ key := "_hr_fms_components", value := fmsSnapshot item }] }

/-- Helper: payment method title table (`getPaymentMethodTitle`). -/
def getPaymentMethodTitle (method : String) : String :=
  if method = "cod" then "Cash on Delivery"
  else if method = "bacs" then "Direct Bank Transfer"
  else if method = "cash" then "Cash Payment"
  else if method = "card" then "Card Payment"
  else if method = "upi" then "UPI Payment"
  else if method = "upi_card" then "UPI / Card Payment"
  else "Cash Payment"

/-- Billing block: customer fields when a customer is present (email only when
non-blank after trimming), fixed walk-in identity otherwise. -/
def buildBilling : Option Customer → Billing
  | some c =>
    { first_name := c.first_name
      last_name := c.last_name
      phone := c.phone
      address_1 := c.address_1
      address_2 := c.address_2
      city := c.city
      state := c.state
      postcode := c.postcode
      country := jsOr c.country "IN"
      email := if c.email.trim = "" then none else some c.email.trim }
  | none =>
    { first_name := "Walk-in"
      last_name := "Customer"
      phone := ""
      address_1 := ""
      city := ""
      country := "IN" }

/-- `buildWooOrderPayload(cartData)` from backend/orderUtils.js. -/
def buildWooOrderPayload (cartData : CartData) : WooOrderPayload :=
  let line_items := cartData.items.map buildLineItem
  let billing := buildBilling cartData.customer
  let coupon_lines : List PayloadCouponLine :=
    if cartData.couponCode.trim = "" then [] else [{ code := cartData.couponCode.trim }]
  let fee_lines : List PayloadFeeLine :=
    (if 0 < cartData.charges.alteration then
      [{ name := "Alteration Charges", total := cartData.charges.alteration, tax_status := "none" }]
     else []) ++
    (if 0 < cartData.charges.other then
      [{ name := "Other Charges", total := cartData.charges.other, tax_status := "none" }]
     else [])
  let shipping_lines : List PayloadShippingLine :=
    if 0 < cartData.charges.courier then
      [{ method_id := "flat_rate", method_title := "Courier Charges",
         total := cartData.charges.courier }]
    else []
  let meta_data : List MetaEntry :=
    [{ key := "order_type", value := jsOr cartData.orderType "Normal Sale" },
     { key := "measurements", value := jsOr cartData.measurements "-" },
     { key := "_pos_order", value := "yes" }]
  { status := "processing"
    customer_id := match cartData.customer with
      | some c => c.woo_customer_id
      | none => 0
    payment_method := jsOr cartData.paymentMethod "cod"
    payment_method_title := getPaymentMethodTitle cartData.paymentMethod
    set_paid := cartData.paymentMethod ≠ "cod"
    billing := billing
    shipping := billing
    line_items := line_items
    coupon_lines := coupon_lines
    fee_lines := fee_lines
    shipping_lines := shipping_lines
    customer_note := cartData.notes
    meta_data := meta_data }

/-! ## Remote-order side (input of `isPosOrder` / `normalizeOrderForBaserow`) -/

structure WooLineItem where
  product_id : Int
  variation_id : Int := 0
  name : String := ""
  sku : String := ""
  quantity : Rat := 0
  price : Rat := 0
  subtotal : Rat := 0
  total : Rat := 0
  total_tax : Rat := 0
deriving Repr, DecidableEq

structure FeeLine where
  name : String
  total : Rat
deriving Repr, DecidableEq

structure ShippingLine where
  method_id : String := ""
  method_title : String := ""
  total : Rat := 0
deriving Repr, DecidableEq

structure CouponLine where
  code : String := ""
  discount_type : String := ""
deriving Repr, DecidableEq

/-- A remote order as consumed by the normalization layer; monetary wire
strings are modeled by their numeric values (the source applies `Number`). -/
structure WooOrder where
  id : Int
  number : String
  status : String := ""
  total : Rat := 0
  payment_method : String := ""
  customer_id : Int := 0
  customer_note : String := ""
  discount_total : Rat := 0
  date_created : String := ""
  date_created_gmt : String := ""
  date_modified_gmt : String := ""
  meta_data : Option (List MetaEntry) := none
  coupon_lines : List CouponLine := []
  fee_lines : List FeeLine := []
  shipping_lines : List ShippingLine := []
  line_items : List WooLineItem := []
deriving Repr, DecidableEq

/-- `isPosOrder(wooOrder)` from backend/orderUtils.js: first entry of the
metadata list with key `_pos_order` must carry value `"yes"`. -/
def isPosOrder (wooOrder : WooOrder) : Bool :=
  match wooOrder.meta_data with
  | none => false
  | some md =>
    match md.find? (fun m => m.key == "_pos_order") with
    | some m => m.value == "yes"
    | none => false

/-- The `getFee` closure of `normalizeOrderForBaserow`: `Number(fee?.total || 0)`
for the first fee line with the given exact name. -/
def getFee (wooOrder : WooOrder) (name : String) : Rat :=
  match wooOrder.fee_lines.find? (fun f => f.name == name) with
  | some fee => fee.total
  | none => 0

/-- The `getMeta` closure of `normalizeOrderForBaserow`: `meta?.value || null`
for the first metadata entry with the given key. -/
def getMeta (wooOrder : WooOrder) (key : String) : Option String :=
  match wooOrder.meta_data with
  | none => none
  | some md =>
    match md.find? (fun m => m.key == key) with
    | some m => if m.value = "" then none else some m.value
    | none => none

/-- `mapStatus(wooStatus)`: the fixed remote-to-normalized status table with
default `"paid"`. -/
def mapStatus (wooStatus : String) : String :=
  if wooStatus = "checkout-draft" then "paid"
  else if wooStatus = "pending" then "paid"
  else if wooStatus = "processing" then "paid"
  else if wooStatus = "on-hold" then "paid"
  else if wooStatus = "completed" then "completed"
  else if wooStatus = "cancelled" then "cancelled"
  else if wooStatus = "refunded" then "refund"
  else if wooStatus = "failed" then "cancelled"
  else "paid"

structure NormalizedItem where
  product_id : Int
  variation_id : Option Int
  name : String
  sku : String
  quantity : Rat
  unit_price : Rat
  subtotal : Rat
  total : Rat
  tax : Rat
deriving Repr, DecidableEq

/-- `normalizeLineItems(lineItems)` from backend/orderUtils.js. -/
def normalizeLineItems (lineItems : List WooLineItem) : List NormalizedItem :=
  lineItems.map fun item =>
    { product_id := item.product_id
      variation_id := if item.variation_id = (0 : Int) then none else some item.variation_id
      name := item.name
      sku := item.sku
      quantity := item.quantity
      unit_price := item.price
      subtotal := item.subtotal
      total := item.total
      tax := item.total_tax }

/-- The record produced by `normalizeOrderForBaserow`; `items` is the parsed
form of the `JSON.stringify` blob the source stores. -/
structure NormalizedOrder where
  woo_order_id : Int
  order_number : String
  status : String
  total : Rat
  payment_method : String
  customer_id : Option Int
  notes : String
  measurements : String
  items : List NormalizedItem
  created_at : String
  updated_at : String
  discount_type : Option String
  discount_amount : Rat
  alteration_charge : Rat
  courier_charge : Rat
  other_charge : Rat
  order_type : String
deriving Repr, DecidableEq

/-- `normalizeOrderForBaserow(wooOrder, skipPosCheck)` from backend/orderUtils.js. -/
def normalizeOrderForBaserow (wooOrder : WooOrder) (skipPosCheck : Bool := false) :
    Option NormalizedOrder :=
  if ¬skipPosCheck ∧ ¬isPosOrder wooOrder then none
  else
    let discountType : Option String :=
      match wooOrder.coupon_lines.head? with
      | some coupon => some (jsOr coupon.discount_type "fixed_cart")
      | none => none
    let courierCharge : Rat :=
      match wooOrder.shipping_lines.head? with
      | some s => s.total
      | none => 0
    some
      { woo_order_id := wooOrder.id
        order_number := wooOrder.number
        status := mapStatus wooOrder.status
        total := wooOrder.total
        payment_method := jsOr wooOrder.payment_method "unknown"
        customer_id := if 0 < wooOrder.customer_id then some wooOrder.customer_id else none
        notes := wooOrder.customer_note
        measurements := (getMeta wooOrder "measurements").getD "-"
        items := normalizeLineItems wooOrder.line_items
        created_at :=
          if wooOrder.date_created_gmt ≠ "" then wooOrder.date_created_gmt ++ "Z"
          else wooOrder.date_created
        updated_at :=
          if wooOrder.date_modified_gmt ≠ "" then wooOrder.date_modified_gmt ++ "Z"
          else if wooOrder.date_created_gmt ≠ "" then wooOrder.date_created_gmt ++ "Z"
          else wooOrder.date_created
        discount_type := discountType
        discount_amount := wooOrder.discount_total
        alteration_charge := getFee wooOrder "Alteration Charges"
        courier_charge := courierCharge
        other_charge := getFee wooOrder "Other Charges"
        order_type := (getMeta wooOrder "order_type").getD "Normal Sale" }

/-! ## Secondary-store (Baserow) service, backend/baserow.service.js -/

/-- `validateOrderSchema(order)`: required-field truthiness check in source
order, then membership of `status` in the allowed list. A thrown `Error` is an
`Except.error` carrying the message the source builds. -/
def validateOrderSchema (order : NormalizedOrder) : Except String Unit :=
  let missing : List String :=
    (if order.woo_order_id = (0 : Int) then ["woo_order_id"] else []) ++
    (if order.order_number = "" then ["order_number"] else []) ++
    (if order.status = "" then ["status"] else []) ++
    (if order.total = 0 then ["total"] else [])
  if missing ≠ [] then
    .error ("Missing required fields: " ++ String.intercalate ", " missing)
  else
    let validStatuses : List String := ["paid", "completed", "cancelled"]
    if validStatuses.contains order.status then
      .ok ()
    else
      .error ("Invalid status: " ++ order.status ++ ". Must be one of: " ++
        String.intercalate ", " validStatuses)

/-- The sanitized row content written to the secondary store. -/
structure BaserowOrderFields where
  woo_order_id : Int
  order_number : String
  status : String
  total : Rat
  payment_method : String
  customer_id : Option Int
  notes : String
  measurements : String
  order_type : String
  items : List NormalizedItem
  created_at : String
  updated_at : String
  discount_type : Option String
  discount_amount : Rat
  alteration_charge : Rat
  courier_charge : Rat
  other_charge : Rat
deriving Repr, DecidableEq

/-- `sanitizeOrderPayload(order)`; `now` stands for `new Date().toISOString()`. -/
def sanitizeOrderPayload (now : String) (order : NormalizedOrder) : BaserowOrderFields :=
  { woo_order_id := order.woo_order_id
    order_number := order.order_number
    status := order.status
    total := order.total
    payment_method := jsOr order.payment_method "unknown"
    customer_id :=
      match order.customer_id with
      | some c => if 0 < c then some c else none
      | none => none
    notes := order.notes
    measurements := jsOr order.measurements "-"
    order_type := jsOr order.order_type "Normal Sale"
    items := order.items
    created_at := jsOr order.created_at now
    updated_at := jsOr order.updated_at now
    discount_type :=
      match order.discount_type with
      | some s => if s = "" then none else some s
      | none => none
    discount_amount := order.discount_amount
    alteration_charge := order.alteration_charge
    courier_charge := order.courier_charge
    other_charge := order.other_charge }

/-- A stored secondary-store row: Baserow row id plus field content. -/
structure OrderRow where
  id : Nat
  fields : BaserowOrderFields
deriving Repr, DecidableEq

/-- The orders table, in row order. -/
abbrev OrderStore := List OrderRow

/-- Environment of remote-call behavior for one `upsertOrder` call:
whether the table id is configured, whether the existence lookup request
errors, and whether the write (patch or post) request errors. -/
structure BaserowEnv where
  tableIdPresent : Bool := true
  lookupFails : Bool := false
  writeFails : Bool := false
deriving Repr, DecidableEq

/-- `getOrderByWooId(wooOrderId)`: on request error the source catches, logs
and returns `null`; otherwise the first row whose `woo_order_id` matches the
filter, or `null` when the filtered result list is empty. -/
def getOrderByWooId (env : BaserowEnv) (store : OrderStore) (wooOrderId : Int) :
    Option OrderRow :=
  if env.lookupFails then none
  else store.find? (fun r => r.fields.woo_order_id == wooOrderId)

/-- The value `upsertOrder` resolves with: `{ ok: true, data, action }` or the
soft failure `{ ok: false, error }` built by its catch-all. -/
inductive UpsertResult where
  | ok (action : String) (row : OrderRow)
  | softFail (error : String)
deriving Repr, DecidableEq

/-- `result.ok` of an upsert result object. -/
def UpsertResult.isOk : UpsertResult → Bool
  | .ok _ _ => true
  | .softFail _ => false

/-- `result.action` of an upsert result object (undefined, modeled as `""`,
on the soft-failure object). -/
def UpsertResult.action : UpsertResult → String
  | .ok a _ => a
  | .softFail _ => ""

/-- `upsertOrder(order)`: table-id guard, schema validation, sanitization,
existence lookup, then patch-or-post. Every `throw` inside the `try` block
(including a validation failure) is caught by the single `catch` and turned
into the soft-failure object; the store is returned alongside the result. -/
def upsertOrder (env : BaserowEnv) (now : String) (nextId : Nat)
    (store : OrderStore) (order : NormalizedOrder) : UpsertResult × OrderStore :=
  if ¬env.tableIdPresent then
    (.softFail "BASEROW_ORDERS_TABLE_ID missing in environment", store)
  else
    match validateOrderSchema order with
    | .error e => (.softFail e, store)
    | .ok _ =>
      let sanitized := sanitizeOrderPayload now order
      match getOrderByWooId env store order.woo_order_id with
      | some existing =>
        if env.writeFails then (.softFail "patch failed", store)
        else
          let updated : OrderRow := { id := existing.id, fields := sanitized }
          (.ok "updated" updated,
           store.map fun r => if r.id = existing.id then updated else r)
      | none =>
        if env.writeFails then (.softFail "post failed", store)
        else
          let created : OrderRow := { id := nextId, fields := sanitized }
          (.ok "created" created, store ++ [created])

/-! ## Reconciliation order sync, backend cron task -/

/-- Result of the awaited `base.upsertOrder(normalized)` call as seen by the
sync loop body: either the call itself threw (caught by the per-order
`catch`) or it resolved with an upsert result object. -/
inductive UpsertOutcome where
  | thrown
  | result (r : UpsertResult)
deriving Repr, DecidableEq

/-- Counters of one `syncRecentOrders` run. -/
structure SyncCounts where
  synced : Nat := 0
  skipped : Nat := 0
  errors : Nat := 0
deriving Repr, DecidableEq

/-- One iteration of the `for (const wooOrder of recentOrders)` loop body of
`syncRecentOrders`: skip non-POS orders, error on a null normalization, then
count the upsert outcome; `eff` is the environment's response to the awaited
upsert. -/
def syncOrderStep (eff : NormalizedOrder → UpsertOutcome) (c : SyncCounts)
    (wooOrder : WooOrder) : SyncCounts :=
  if ¬isPosOrder wooOrder then { c with skipped := c.skipped + 1 }
  else
    match normalizeOrderForBaserow wooOrder true with
    | none => { c with errors := c.errors + 1 }
    | some normalized =>
      match eff normalized with
      | .thrown => { c with errors := c.errors + 1 }
      | .result r =>
        if r.isOk then { c with synced := c.synced + 1 }
        else { c with errors := c.errors + 1 }

/-- `syncRecentOrders()` over an already-fetched batch of recent orders. -/
def syncRecentOrders (eff : NormalizedOrder → UpsertOutcome)
    (recentOrders : List WooOrder) : SyncCounts :=
  recentOrders.foldl (syncOrderStep eff) {}

/-! ## Helper lemmas -/

/-- Characterization of `List.find?` as the first-match split of the list. -/
theorem find?_eq_some_iff_split {α : Type} (p : α → Bool) (l : List α) (a : α) :
    l.find? p = some a ↔
      ∃ pre post, l = pre ++ a :: post ∧ p a = true ∧ ∀ b ∈ pre, p b = false := by
  induction l with
  | nil => simp
  | cons x xs ih =>
    by_cases hp : p x
    · rw [List.find?_cons_of_pos _ hp]
      constructor
      · rintro h
        injection h with h
        exact ⟨[], xs, by rw [h]; rfl, h ▸ hp, by simp⟩
      · rintro ⟨pre, post, heq, hpa, hpre⟩
        cases pre with
        | nil =>
          injection heq with h1 h2
          rw [h1]
        | cons y ys =>
          injection heq with h1 h2
          have hy := hpre y (by simp)
          rw [← h1, hp] at hy
          cases hy
    · rw [List.find?_cons_of_neg _ hp, ih]
      constructor
      · rintro ⟨pre, post, heq, hpa, hpre⟩
        refine ⟨x :: pre, post, by rw [heq]; rfl, hpa, ?_⟩
        intro b hb
        rcases List.mem_cons.mp hb with hb | hb
        · rw [hb]; exact Bool.eq_false_iff.mpr hp
        · exact hpre b hb
      · rintro ⟨pre, post, heq, hpa, hpre⟩
        cases pre with
        | nil =>
          injection heq with h1 h2
          rw [← h1] at hpa
          exact absurd hpa hp
        | cons y ys =>
          injection heq with h1 h2
          exact ⟨ys, post, h2, hpa, fun b hb => hpre b (by simp [hb])⟩

/-- Splitting a filtered length over the complement of a Boolean predicate. -/
theorem length_filter_add_length_filter_not {α : Type} (p : α → Bool) (l : List α) :
    (l.filter p).length + (l.filter (fun a => !p a)).length = l.length := by
  induction l with
  | nil => rfl
  | cons x xs ih =>
    by_cases hp : p x <;>
      simp [List.filter_cons, hp, Nat.add_assoc, Nat.add_comm, Nat.add_left_comm, ih,
        Nat.succ_eq_add_one]
    · omega
    · omega

/-- Mapping a function that fixes every element of a list is the identity. -/
theorem map_eq_self_of_fixed {α : Type} (f : α → α) (l : List α)
    (h : ∀ a ∈ l, f a = a) : l.map f = l := by
  induction l with
  | nil => rfl
  | cons x xs ih =>
    simp only [List.map_cons, h x (by simp)]
    rw [ih fun a ha => h a (by simp [ha])]

/-! ## Claim theorems -/

/-- C5: `mapStatus` is the pure fixed table sending checkout-draft, pending,
processing and on-hold to "paid", completed to "completed", cancelled and
failed to "cancelled", refunded to "refund", and every string outside the
table to "paid"; in particular `mapStatus "processing" = "paid"`,
`mapStatus "refunded" = "refund"`, `mapStatus "anything-unknown" = "paid"`,
and every result lies in {paid, completed, cancelled, refund}. -/
theorem mapStatus_fixed_table :
    (mapStatus "checkout-draft" = "paid" ∧ mapStatus "pending" = "paid" ∧
     mapStatus "processing" = "paid" ∧ mapStatus "on-hold" = "paid" ∧
     mapStatus "completed" = "completed" ∧ mapStatus "cancelled" = "cancelled" ∧
     mapStatus "failed" = "cancelled" ∧ mapStatus "refunded" = "refund" ∧
     mapStatus "anything-unknown" = "paid") ∧
    (∀ s : String,
      s ∉ (["checkout-draft", "pending", "processing", "on-hold", "completed",
            "cancelled", "refunded", "failed"] : List String) →
      mapStatus s = "paid") ∧
    (∀ s : String,
      mapStatus s ∈ (["paid", "completed", "cancelled", "refund"] : List String)) := by
  refine ⟨⟨rfl, rfl, rfl, rfl, rfl, rfl, rfl, rfl, rfl⟩, ?_, ?_⟩
  · intro s hs
    simp only [List.mem_cons, List.not_mem_nil, or_false, not_or] at hs
    obtain ⟨h1, h2, h3, h4, h5, h6, h7, h8⟩ := hs
    simp [mapStatus, h1, h2, h3, h4, h5, h6, h7, h8]
  · intro s
    unfold mapStatus
    split_ifs <;> simp

/-- C5 witness: the theorem applied at the concrete unknown status. -/
theorem mapStatus_fixed_table_witness : mapStatus "anything-unknown" = "paid" :=
  mapStatus_fixed_table.2.1 "anything-unknown" (by decide)

/-- A fully-populated normalized record for a refunded remote order: its
status is exactly what `mapStatus` produces for remote status "refunded". -/
def refundedNormalized : NormalizedOrder :=
  { woo_order_id := 501
    order_number := "1042"
    status := mapStatus "refunded"
    total := 1999
    payment_method := "upi"
    customer_id := none
    notes := ""
    measurements := "-"
    items := []
    created_at := "2025-01-01T00:00:00Z"
    updated_at := "2025-01-01T00:00:00Z"
    discount_type := none
    discount_amount := 0
    alteration_charge := 0
    courier_charge := 0
    other_charge := 0
    order_type := "Normal Sale" }

/-- C2: the schema-validation step accepts "paid", "completed" and
"cancelled", but contrary to the claim it rejects a fully-populated record
whose status is "refund" — the very value the pipeline's own `mapStatus`
produces for refunded remote orders — throwing the invalid-status error. -/
theorem validateOrderSchema_rejects_refund :
    mapStatus "refunded" = "refund" ∧
    refundedNormalized.woo_order_id ≠ (0 : Int) ∧
    refundedNormalized.order_number ≠ "" ∧
    refundedNormalized.status = "refund" ∧
    refundedNormalized.total ≠ 0 ∧
    validateOrderSchema refundedNormalized =
      .error "Invalid status: refund. Must be one of: paid, completed, cancelled" ∧
    validateOrderSchema { refundedNormalized with status := "paid" } = .ok () ∧
    validateOrderSchema { refundedNormalized with status := "completed" } = .ok () ∧
    validateOrderSchema { refundedNormalized with status := "cancelled" } = .ok () := by
  refine ⟨rfl, by decide, by decide, rfl, by decide, rfl, rfl, rfl, rfl⟩

/-- A fully-populated normalized record that passes schema validation. -/
def validPaidOrder : NormalizedOrder :=
  { woo_order_id := 611
    order_number := "1100"
    status := "paid"
    total := 2500
    payment_method := "cash"
    customer_id := some 9
    notes := "pickup"
    measurements := "-"
    items := []
    created_at := "2025-02-02T00:00:00Z"
    updated_at := "2025-02-02T00:00:00Z"
    discount_type := none
    discount_amount := 0
    alteration_charge := 0
    courier_charge := 0
    other_charge := 0
    order_type := "Normal Sale" }

/-- C1 counterexample: on a concretely invalid record (status "refund", every
required field present), `upsertOrder` does not raise — it returns the same
soft-failure object `{ ok: false }` used for remote-write failures, because
the validation throw happens inside the function's own try/catch. -/
theorem upsertOrder_validation_not_raised :
    (upsertOrder {} "2025-01-01T00:00:00Z" 1 [] refundedNormalized).1 =
      .softFail "Invalid status: refund. Must be one of: paid, completed, cancelled" ∧
    (upsertOrder {} "2025-01-01T00:00:00Z" 1 [] refundedNormalized).1.isOk = false := by
  exact ⟨rfl, rfl⟩

/-- C1 amended: schema validation runs before any store I/O — on a validation
failure the result is the soft-failure object carrying the validation message
and the store is untouched, for every lookup/write behavior of the remote
store — and a remote-write failure on a valid record is likewise caught and
returned as a soft failure with the store untouched; neither is raised. -/
theorem upsertOrder_failure_semantics (env : BaserowEnv) (now : String)
    (nextId : Nat) (store : OrderStore) (order : NormalizedOrder) (e : String)
    (henv : env.tableIdPresent = true) :
    (validateOrderSchema order = .error e →
      upsertOrder env now nextId store order = (.softFail e, store)) ∧
    (validateOrderSchema order = .ok () → env.writeFails = true →
      ∃ msg, upsertOrder env now nextId store order = (.softFail msg, store)) := by
  constructor
  · intro hval
    unfold upsertOrder
    rw [henv]
    simp [hval]
  · intro hval hw
    unfold upsertOrder
    rw [henv]
    simp only [Bool.not_true, Bool.false_eq_true, if_false, hval]
    cases hfound : getOrderByWooId env store order.woo_order_id <;>
      simp [hw]

/-- C1 witness: the amended theorem applied at concrete inputs, once for a
validation failure and once for a remote-write failure on a valid record. -/
theorem upsertOrder_failure_semantics_witness :
    upsertOrder {} "t0" 1 [] refundedNormalized =
      (.softFail "Invalid status: refund. Must be one of: paid, completed, cancelled", []) ∧
    ∃ msg, upsertOrder { writeFails := true } "t0" 1 [] validPaidOrder =
      (.softFail msg, []) := by
  constructor
  · exact (upsertOrder_failure_semantics {} "t0" 1 [] refundedNormalized
      "Invalid status: refund. Must be one of: paid, completed, cancelled" rfl).1 rfl
  · exact (upsertOrder_failure_semantics { writeFails := true } "t0" 1 []
      validPaidOrder "" rfl).2 rfl rfl

/-- C3: `isPosOrder` classifies an order as POS-originated iff the metadata
list exists and its first entry with key `_pos_order` carries value exactly
"yes" — the first matching entry in list order decides when the key is
duplicated, and absence of the list, absence of the key, or any other value
on the first match classifies as not-POS. -/
theorem isPosOrder_first_match (o : WooOrder) :
    isPosOrder o = true ↔
      ∃ md pre m post,
        o.meta_data = some md ∧ md = pre ++ m :: post ∧
        (∀ e ∈ pre, e.key ≠ "_pos_order") ∧
        m.key = "_pos_order" ∧ m.value = "yes" := by
  unfold isPosOrder
  cases hmd : o.meta_data with
  | none =>
    simp
  | some md =>
    cases hf : md.find? (fun m => m.key == "_pos_order") with
    | none =>
      simp only [hf]
      rw [List.find?_eq_none] at hf
      simp only [Bool.false_eq_true, false_iff]
      rintro ⟨md2, pre, m, post, hsome, hsplit, hpre, hkey, hval⟩
      injection hsome with hmd2
      subst hmd2
      have := hf m (by rw [hsplit]; simp)
      simp [hkey] at this
    | some m =>
      simp only [hf]
      rw [find?_eq_some_iff_split] at hf
      obtain ⟨pre, post, hsplit, hpm, hpre⟩ := hf
      simp only [beq_iff_eq] at hpm
      constructor
      · intro hv
        simp only [beq_iff_eq] at hv
        refine ⟨md, pre, m, post, rfl, hsplit, fun e he => ?_, hpm, hv⟩
        have := hpre e he
        simpa using this
      · rintro ⟨md2, pre2, m2, post2, hsome, hsplit2, hpre2, hkey2, hval2⟩
        injection hsome with hmd2
        subst hmd2
        have hfind2 : md.find? (fun x => x.key == "_pos_order") = some m2 := by
          rw [find?_eq_some_iff_split]
          refine ⟨pre2, post2, hsplit2, by simp [hkey2], fun b hb => ?_⟩
          simp [hpre2 b hb]
        have hfind1 : md.find? (fun x => x.key == "_pos_order") = some m := by
          rw [find?_eq_some_iff_split]
          exact ⟨pre, post, hsplit, by simp [hpm], hpre⟩
        rw [hfind1] at hfind2
        injection hfind2 with hm
        rw [← hm] at hval2
        simp [hval2]

/-- C8: for every remote order, `normalizeOrderForBaserow` takes
`alteration_charge` from the first fee line named exactly
"Alteration Charges" and `other_charge` from the first fee line named
exactly "Other Charges" (the bucket equals that fee line's total), and every
differently-named fee line contributes to neither bucket: when no fee line
bears the exact name, the corresponding bucket is 0. -/
theorem normalize_fee_buckets (o : WooOrder) :
    ∃ n, normalizeOrderForBaserow o true = some n ∧
      (∀ pre fee post, o.fee_lines = pre ++ fee :: post →
        (∀ f ∈ pre, f.name ≠ "Alteration Charges") →
        fee.name = "Alteration Charges" →
        n.alteration_charge = fee.total) ∧
      ((∀ f ∈ o.fee_lines, f.name ≠ "Alteration Charges") →
        n.alteration_charge = 0) ∧
      (∀ pre fee post, o.fee_lines = pre ++ fee :: post →
        (∀ f ∈ pre, f.name ≠ "Other Charges") →
        fee.name = "Other Charges" →
        n.other_charge = fee.total) ∧
      ((∀ f ∈ o.fee_lines, f.name ≠ "Other Charges") →
        n.other_charge = 0) := by
  refine ⟨_, rfl, ?_, ?_, ?_, ?_⟩
  · intro pre fee post hsplit hpre hname
    show getFee o "Alteration Charges" = fee.total
    unfold getFee
    have hfind : o.fee_lines.find? (fun f => f.name == "Alteration Charges") =
        some fee := by
      rw [find?_eq_some_iff_split]
      refine ⟨pre, post, hsplit, by simp [hname], fun b hb => ?_⟩
      simp [hpre b hb]
    rw [hfind]
  · intro h
    show getFee o "Alteration Charges" = 0
    unfold getFee
    have hfind : o.fee_lines.find? (fun f => f.name == "Alteration Charges") =
        none := by
      rw [List.find?_eq_none]
      intro f hf
      simp [h f hf]
    rw [hfind]
  · intro pre fee post hsplit hpre hname
    show getFee o "Other Charges" = fee.total
    unfold getFee
    have hfind : o.fee_lines.find? (fun f => f.name == "Other Charges") =
        some fee := by
      rw [find?_eq_some_iff_split]
      refine ⟨pre, post, hsplit, by simp [hname], fun b hb => ?_⟩
      simp [hpre b hb]
    rw [hfind]
  · intro h
    show getFee o "Other Charges" = 0
    unfold getFee
    have hfind : o.fee_lines.find? (fun f => f.name == "Other Charges") =
        none := by
      rw [List.find?_eq_none]
      intro f hf
      simp [h f hf]
    rw [hfind]

/-- A remote order whose only fee line is a "Gift Wrap" fee of amount 50. -/
def giftWrapOrder : WooOrder :=
  { id := 77
    number := "2001"
    status := "processing"
    total := 1050
    fee_lines := [{ name := "Gift Wrap", total := 50 }] }

/-- A remote order with an unrecognized "Gift Wrap" fee followed by an
"Alteration Charges" fee. -/
def mixedFeeOrder : WooOrder :=
  { id := 78
    number := "2002"
    status := "processing"
    total := 1200
    fee_lines := [{ name := "Gift Wrap", total := 50 },
                  { name := "Alteration Charges", total := 100 }] }

/-- C8 witness: the theorem applied to the order whose only fee line is
"Gift Wrap" with amount 50 (both buckets 0) and to a mixed order where the
"Gift Wrap" fee is skipped and `alteration_charge` extracts exactly the
"Alteration Charges" fee line's total. -/
theorem normalize_fee_buckets_witness :
    (∃ n, normalizeOrderForBaserow giftWrapOrder true = some n ∧
      n.alteration_charge = 0 ∧ n.other_charge = 0) ∧
    (∃ n, normalizeOrderForBaserow mixedFeeOrder true = some n ∧
      n.alteration_charge = 100 ∧ n.other_charge = 0) := by
  constructor
  · obtain ⟨n, hn, hapos, hazero, hopos, hozero⟩ :=
      normalize_fee_buckets giftWrapOrder
    exact ⟨n, hn, hazero (by decide), hozero (by decide)⟩
  · obtain ⟨n, hn, hapos, hazero, hopos, hozero⟩ :=
      normalize_fee_buckets mixedFeeOrder
    refine ⟨n, hn, ?_, hozero (by decide)⟩
    exact hapos [{ name := "Gift Wrap", total := 50 }]
      { name := "Alteration Charges", total := 100 } [] rfl (by decide) rfl

/-- C4: starting from a store with no row for the foreign order id and with
lookups and writes succeeding, two sequential `upsertOrder` calls with the
same id and content leave exactly one matching row, the first call reporting
action "created" and the second action "updated". -/
theorem upsertOrder_idempotent (store : OrderStore) (order : NormalizedOrder)
    (now1 now2 : String) (id1 id2 : Nat)
    (hval : validateOrderSchema order = .ok ())
    (hnew : ∀ r ∈ store, r.fields.woo_order_id ≠ order.woo_order_id)
    (hfresh : ∀ r ∈ store, r.id ≠ id1) :
    (upsertOrder {} now1 id1 store order).1.action = "created" ∧
    (upsertOrder {} now2 id2 (upsertOrder {} now1 id1 store order).2
        order).1.action = "updated" ∧
    ((upsertOrder {} now2 id2 (upsertOrder {} now1 id1 store order).2
        order).2.filter
      (fun r => r.fields.woo_order_id == order.woo_order_id)).length = 1 := by
  have hfindnone : store.find?
      (fun r => r.fields.woo_order_id == order.woo_order_id) = none := by
    rw [List.find?_eq_none]
    intro r hr
    simp [hnew r hr]
  have hlookup1 : getOrderByWooId {} store order.woo_order_id = none := by
    unfold getOrderByWooId
    simpa using hfindnone
  have h1 : upsertOrder {} now1 id1 store order =
      (.ok "created" { id := id1, fields := sanitizeOrderPayload now1 order },
       store ++ [{ id := id1, fields := sanitizeOrderPayload now1 order }]) := by
    unfold upsertOrder
    simp [hval, hlookup1]
  have hsanid : (sanitizeOrderPayload now1 order).woo_order_id = order.woo_order_id := rfl
  have hlookup2 : getOrderByWooId {}
      (store ++ [{ id := id1, fields := sanitizeOrderPayload now1 order }])
      order.woo_order_id =
      some { id := id1, fields := sanitizeOrderPayload now1 order } := by
    unfold getOrderByWooId
    simp only [Bool.false_eq_true, if_false, List.find?_append, hfindnone,
      Option.none_or]
    simp [List.find?_cons, hsanid]
  have h2 : upsertOrder {} now2 id2
      (store ++ [({ id := id1, fields := sanitizeOrderPayload now1 order } : OrderRow)])
      order =
      (.ok "updated" { id := id1, fields := sanitizeOrderPayload now2 order },
       (store ++ [({ id := id1, fields := sanitizeOrderPayload now1 order } : OrderRow)]).map
         fun r : OrderRow =>
           if r.id = id1 then
             ({ id := id1, fields := sanitizeOrderPayload now2 order } : OrderRow)
           else r) := by
    unfold upsertOrder
    simp [hval, hlookup2]
  have hmap : (store ++ [({ id := id1, fields := sanitizeOrderPayload now1 order } : OrderRow)]).map
      (fun r : OrderRow =>
        if r.id = id1 then
          ({ id := id1, fields := sanitizeOrderPayload now2 order } : OrderRow)
        else r) =
      store ++ [({ id := id1, fields := sanitizeOrderPayload now2 order } : OrderRow)] := by
    rw [List.map_append]
    congr 1
    · apply map_eq_self_of_fixed
      intro r hr
      simp [hfresh r hr]
    · simp
  refine ⟨?_, ?_, ?_⟩
  · rw [h1]
    rfl
  · rw [h1, h2]
    rfl
  · rw [h1, h2, hmap, List.filter_append]
    have hstorefilter : store.filter
        (fun r => r.fields.woo_order_id == order.woo_order_id) = [] := by
      rw [List.filter_eq_nil_iff]
      intro r hr
      simp [hnew r hr]
    rw [hstorefilter]
    simp [sanitizeOrderPayload]

/-- C4 witness: the idempotence theorem applied to the empty store and a
concrete valid order. -/
theorem upsertOrder_idempotent_witness :
    (upsertOrder {} "t1" 1 [] validPaidOrder).1.action = "created" ∧
    (upsertOrder {} "t2" 2 (upsertOrder {} "t1" 1 [] validPaidOrder).2
        validPaidOrder).1.action = "updated" ∧
    ((upsertOrder {} "t2" 2 (upsertOrder {} "t1" 1 [] validPaidOrder).2
        validPaidOrder).2.filter
      (fun r => r.fields.woo_order_id == validPaidOrder.woo_order_id)).length = 1 :=
  upsertOrder_idempotent [] validPaidOrder "t1" "t2" 1 2 rfl
    (by intro r hr; cases hr) (by intro r hr; cases hr)

/-- C9: whenever the secondary-store existence lookup errors, it returns null
regardless of the store contents, and `upsertOrder` then takes the create
branch: for a foreign order id already present in the store, an upsert
performed while the lookup errors reports "created" and appends a second row
with that same foreign id. -/
theorem lookup_error_creates_duplicate (store : OrderStore)
    (order : NormalizedOrder) (now : String) (nextId : Nat)
    (hval : validateOrderSchema order = .ok ())
    (hexists : 1 ≤ (store.filter
      (fun r => r.fields.woo_order_id == order.woo_order_id)).length) :
    getOrderByWooId { lookupFails := true } store order.woo_order_id = none ∧
    (upsertOrder { lookupFails := true } now nextId store order).1.action =
      "created" ∧
    ((upsertOrder { lookupFails := true } now nextId store order).2.filter
      (fun r => r.fields.woo_order_id == order.woo_order_id)).length =
      (store.filter
        (fun r => r.fields.woo_order_id == order.woo_order_id)).length + 1 ∧
    2 ≤ ((upsertOrder { lookupFails := true } now nextId store order).2.filter
      (fun r => r.fields.woo_order_id == order.woo_order_id)).length := by
  have hlookup : getOrderByWooId { lookupFails := true } store
      order.woo_order_id = none := rfl
  have h1 : upsertOrder { lookupFails := true } now nextId store order =
      (.ok "created"
        ({ id := nextId, fields := sanitizeOrderPayload now order } : OrderRow),
       store ++
        [({ id := nextId, fields := sanitizeOrderPayload now order } : OrderRow)]) := by
    unfold upsertOrder
    simp [hval, hlookup]
  refine ⟨hlookup, ?_, ?_, ?_⟩
  · rw [h1]
    rfl
  · rw [h1, List.filter_append]
    simp [sanitizeOrderPayload]
  · rw [h1, List.filter_append]
    simp only [List.length_append]
    have : (List.filter
        (fun r => r.fields.woo_order_id == order.woo_order_id)
        [({ id := nextId, fields := sanitizeOrderPayload now order } : OrderRow)]).length = 1 := by
      simp [sanitizeOrderPayload]
    omega

/-- A store already holding a mirrored row for `validPaidOrder`. -/
def seededStore : OrderStore :=
  [{ id := 1, fields := sanitizeOrderPayload "t0" validPaidOrder }]

/-- C9 witness: the theorem applied to a store that already mirrors the
order, showing the duplicate row count 2. -/
theorem lookup_error_creates_duplicate_witness :
    getOrderByWooId { lookupFails := true } seededStore
      validPaidOrder.woo_order_id = none ∧
    (upsertOrder { lookupFails := true } "t1" 2 seededStore
      validPaidOrder).1.action = "created" ∧
    ((upsertOrder { lookupFails := true } "t1" 2 seededStore
        validPaidOrder).2.filter
      (fun r => r.fields.woo_order_id == validPaidOrder.woo_order_id)).length =
      (seededStore.filter
        (fun r => r.fields.woo_order_id == validPaidOrder.woo_order_id)).length + 1 ∧
    2 ≤ ((upsertOrder { lookupFails := true } "t1" 2 seededStore
        validPaidOrder).2.filter
      (fun r => r.fields.woo_order_id == validPaidOrder.woo_order_id)).length :=
  lookup_error_creates_duplicate seededStore validPaidOrder "t1" 2 rfl (by decide)

/-- With the POS check skipped, normalization never returns null. -/
theorem normalize_skip_isSome (o : WooOrder) :
    ∃ n, normalizeOrderForBaserow o true = some n :=
  ⟨_, rfl⟩

/-- Spec-side classifier for stating the reconciliation counts: the order
normalizes (POS check skipped) and the awaited upsert resolves with an
`ok: true` result. -/
def orderSyncSucceeds (eff : NormalizedOrder → UpsertOutcome) (o : WooOrder) : Bool :=
  match normalizeOrderForBaserow o true with
  | some n =>
    match eff n with
    | .result r => r.isOk
    | .thrown => false
  | none => false

/-- Three-way length partition of a list by a gate predicate and a success
predicate under the gate. -/
theorem three_way_partition {α : Type} (p s : α → Bool) (l : List α) :
    (l.filter fun a => p a && s a).length + (l.filter fun a => !p a).length +
      (l.filter fun a => p a && !s a).length = l.length := by
  induction l with
  | nil => rfl
  | cons x xs ih =>
    by_cases hp : p x <;> by_cases hs : s x <;>
      simp [List.filter_cons, hp, hs] <;> omega

/-- Characterization of one loop iteration by the gate and success
classifiers. -/
theorem syncOrderStep_eq (eff : NormalizedOrder → UpsertOutcome)
    (c : SyncCounts) (o : WooOrder) :
    syncOrderStep eff c o =
      if isPosOrder o then
        (if orderSyncSucceeds eff o then { c with synced := c.synced + 1 }
         else { c with errors := c.errors + 1 })
      else { c with skipped := c.skipped + 1 } := by
  unfold syncOrderStep orderSyncSucceeds
  by_cases hpos : isPosOrder o
  · cases hn : normalizeOrderForBaserow o true with
    | none => simp [hpos]
    | some n =>
      cases heff : eff n with
      | thrown => simp [hpos, heff]
      | result r => cases hr : r.isOk <;> simp [hpos, heff, hr]
  · simp [hpos]

/-- Unfolding of the reconciliation fold into the three counters. -/
theorem syncFold_counts (eff : NormalizedOrder → UpsertOutcome)
    (orders : List WooOrder) (c : SyncCounts) :
    orders.foldl (syncOrderStep eff) c =
      { synced := c.synced +
          (orders.filter fun o => isPosOrder o && orderSyncSucceeds eff o).length
        skipped := c.skipped + (orders.filter fun o => !isPosOrder o).length
        errors := c.errors +
          (orders.filter fun o => isPosOrder o && !orderSyncSucceeds eff o).length } := by
  induction orders generalizing c with
  | nil => simp
  | cons o os ih =>
    rw [List.foldl_cons, syncOrderStep_eq, ih]
    by_cases hpos : isPosOrder o
    · by_cases hok : orderSyncSucceeds eff o
      · simp only [hpos, hok, if_true, List.filter_cons, Bool.and_self,
          Bool.true_and, Bool.not_true, Bool.and_false, SyncCounts.mk.injEq]
        simp
        omega
      · have hokf : orderSyncSucceeds eff o = false := by
          revert hok
          cases orderSyncSucceeds eff o <;> simp
        simp only [hpos, hokf, if_true, if_false, List.filter_cons,
          Bool.true_and, Bool.not_false, Bool.and_false, Bool.and_true,
          SyncCounts.mk.injEq]
        simp
        omega
    · have hposf : isPosOrder o = false := by
        revert hpos
        cases isPosOrder o <;> simp
      simp only [hposf, if_false, List.filter_cons, Bool.false_and,
        Bool.not_false, SyncCounts.mk.injEq]
      simp
      omega

/-- C7: one reconciliation order-sync run processes every fetched order
exactly once (synced + skipped + errors = batch size), each counter is
exactly the number of orders in its class — so one order's failure never
changes how the rest are counted or processed — and for any batch of five
POS orders with exactly one failing order the final counts are exactly
4 synced, 0 skipped and 1 errored. -/
theorem syncRecentOrders_batch (eff : NormalizedOrder → UpsertOutcome)
    (orders : List WooOrder) :
    ((syncRecentOrders eff orders).synced + (syncRecentOrders eff orders).skipped +
      (syncRecentOrders eff orders).errors = orders.length) ∧
    (syncRecentOrders eff orders).synced =
      (orders.filter fun o => isPosOrder o && orderSyncSucceeds eff o).length ∧
    (syncRecentOrders eff orders).skipped =
      (orders.filter fun o => !isPosOrder o).length ∧
    (syncRecentOrders eff orders).errors =
      (orders.filter fun o => isPosOrder o && !orderSyncSucceeds eff o).length ∧
    (∀ os : List WooOrder, os.length = 5 →
      (∀ o ∈ os, isPosOrder o = true) →
      (os.filter fun o => !orderSyncSucceeds eff o).length = 1 →
      syncRecentOrders eff os = { synced := 4, skipped := 0, errors := 1 }) := by
  have hc : ∀ os : List WooOrder, syncRecentOrders eff os =
      { synced := (os.filter fun o => isPosOrder o && orderSyncSucceeds eff o).length
        skipped := (os.filter fun o => !isPosOrder o).length
        errors := (os.filter fun o => isPosOrder o && !orderSyncSucceeds eff o).length } := by
    intro os
    unfold syncRecentOrders
    rw [syncFold_counts]
    simp
  refine ⟨?_, ?_, ?_, ?_, ?_⟩
  · rw [hc]
    exact three_way_partition _ _ orders
  · rw [hc]
  · rw [hc]
  · rw [hc]
  · intro os hlen hall hfail
    rw [hc]
    have hskip : (os.filter fun o => !isPosOrder o) = [] := by
      rw [List.filter_eq_nil_iff]
      intro o ho
      simp [hall o ho]
    have herr : (os.filter fun o => isPosOrder o && !orderSyncSucceeds eff o) =
        (os.filter fun o => !orderSyncSucceeds eff o) := by
      apply List.filter_congr
      intro o ho
      simp [hall o ho]
    have hsync : (os.filter fun o => isPosOrder o && orderSyncSucceeds eff o) =
        (os.filter fun o => orderSyncSucceeds eff o) := by
      apply List.filter_congr
      intro o ho
      simp [hall o ho]
    have hpart := length_filter_add_length_filter_not
      (fun o => orderSyncSucceeds eff o) os
    simp only [hskip, hsync, herr, List.length_nil, SyncCounts.mk.injEq]
    refine ⟨?_, trivial, hfail⟩
    omega

/-- A batch of five POS-flagged remote orders. -/
def posBatch : List WooOrder :=
  [{ id := 1, number := "1", status := "processing", total := 100,
     meta_data := some [{ key := "_pos_order", value := "yes" }] },
   { id := 2, number := "2", status := "completed", total := 200,
     meta_data := some [{ key := "_pos_order", value := "yes" }] },
   { id := 3, number := "3", status := "processing", total := 300,
     meta_data := some [{ key := "_pos_order", value := "yes" }] },
   { id := 4, number := "4", status := "cancelled", total := 400,
     meta_data := some [{ key := "_pos_order", value := "yes" }] },
   { id := 5, number := "5", status := "processing", total := 500,
     meta_data := some [{ key := "_pos_order", value := "yes" }] }]

/-- An upsert environment that soft-fails exactly for foreign order id 3 and
succeeds for every other order. -/
def effFailOnThree : NormalizedOrder → UpsertOutcome := fun n =>
  if n.woo_order_id = (3 : Int) then .result (.softFail "boom")
  else .result (.ok "created" { id := 0, fields := sanitizeOrderPayload "t" n })

/-- C7 witness: the batch theorem applied to five concrete POS orders of
which exactly one fails, giving counts 4 synced, 0 skipped, 1 errored. -/
theorem syncRecentOrders_batch_witness :
    syncRecentOrders effFailOnThree posBatch =
      { synced := 4, skipped := 0, errors := 1 } :=
  (syncRecentOrders_batch effFailOnThree posBatch).2.2.2.2 posBatch rfl
    (by decide) (by decide)

/-- C6 simulation: the remote echo of a submitted payload. The remote system
assigns the id, number, totals, dates and the enriched line items (all free
parameters here) and echoes back the payload-determined fields: status,
metadata, fee lines and shipping lines. -/
def simulateRemoteOrder (p : WooOrderPayload) (oid : Int) (onum : String)
    (ototal : Rat) (dc dcg dmg : String) (items : List WooLineItem)
    (discountTotal : Rat) (coupons : List CouponLine) : WooOrder :=
  { id := oid
    number := onum
    status := p.status
    total := ototal
    payment_method := p.payment_method
    customer_id := p.customer_id
    customer_note := p.customer_note
    discount_total := discountTotal
    date_created := dc
    date_created_gmt := dcg
    date_modified_gmt := dmg
    meta_data := some p.meta_data
    coupon_lines := coupons
    fee_lines := p.fee_lines.map fun f => { name := f.name, total := f.total }
    shipping_lines := p.shipping_lines.map fun s =>
      { method_id := s.method_id, method_title := s.method_title, total := s.total }
    line_items := items }

/-- C6: building the remote payload from any POS cart and normalizing the
simulated remote echo with the POS check skipped preserves `order_type` and
`measurements` (the normalized values are exactly the values the payload's
metadata entries carry), and every component of every serialized
`_hr_fms_components` snapshot in the payload satisfies
`meters_total = meters_per_unit * quantity` of its line item. -/
theorem buildPayload_normalize_roundtrip (cart : CartData) (oid : Int)
    (onum : String) (ototal : Rat) (dc dcg dmg : String)
    (items : List WooLineItem) (discountTotal : Rat)
    (coupons : List CouponLine) :
    ∃ n, normalizeOrderForBaserow
        (simulateRemoteOrder (buildWooOrderPayload cart) oid onum ototal
          dc dcg dmg items discountTotal coupons) true = some n ∧
      n.order_type = jsOr cart.orderType "Normal Sale" ∧
      n.measurements = jsOr cart.measurements "-" ∧
      (buildWooOrderPayload cart).meta_data.find?
          (fun m => m.key == "order_type") =
        some { key := "order_type", value := jsOr cart.orderType "Normal Sale" } ∧
      (buildWooOrderPayload cart).meta_data.find?
          (fun m => m.key == "measurements") =
        some { key := "measurements", value := jsOr cart.measurements "-" } ∧
      ∀ li ∈ (buildWooOrderPayload cart).line_items, ∀ mds,
        li.meta_data = some mds → ∀ e ∈ mds, ∀ c ∈ e.value,
          c.meters_total = c.meters_per_unit * li.quantity := by
  have hneOT : jsOr cart.orderType "Normal Sale" ≠ "" := by
    unfold jsOr
    by_cases h : cart.orderType = "" <;> simp [h]
  have hneM : jsOr cart.measurements "-" ≠ "" := by
    unfold jsOr
    by_cases h : cart.measurements = "" <;> simp [h]
  refine ⟨_, rfl, ?_, ?_, rfl, rfl, ?_⟩
  · show (if jsOr cart.orderType "Normal Sale" = "" then none
        else some (jsOr cart.orderType "Normal Sale")).getD "Normal Sale" =
      jsOr cart.orderType "Normal Sale"
    rw [if_neg hneOT]
    rfl
  · show (if jsOr cart.measurements "-" = "" then none
        else some (jsOr cart.measurements "-")).getD "-" =
      jsOr cart.measurements "-"
    rw [if_neg hneM]
    rfl
  · intro li hli mds hmds e he c hc
    obtain ⟨item, hitem, rfl⟩ := List.mem_map.mp hli
    by_cases hemp : item.fms_components.isEmpty
    · have : (buildLineItem item).meta_data = none := by
        unfold buildLineItem
        simp [hemp]
      rw [this] at hmds
      cases hmds
    · have hsome : (buildLineItem item).meta_data =
          some [{ key := "_hr_fms_components", value := fmsSnapshot item }] := by
        unfold buildLineItem
        simp [hemp]
      rw [hsome] at hmds
      injection hmds with hmds
      subst hmds
      rcases List.mem_singleton.mp he with rfl
      obtain ⟨comp, hcomp, rfl⟩ := List.mem_map.mp hc
      rfl

/-- C3 witness: the characterization applied to an order whose metadata
duplicates the `_pos_order` key — the first entry (value "yes") decides. -/
theorem isPosOrder_first_match_witness :
    isPosOrder
      { id := 3
        number := "3"
        meta_data := some [{ key := "_pos_order", value := "yes" },
                           { key := "_pos_order", value := "no" }] } = true :=
  (isPosOrder_first_match _).mpr
    ⟨[{ key := "_pos_order", value := "yes" },
      { key := "_pos_order", value := "no" }],
     [], { key := "_pos_order", value := "yes" },
     [{ key := "_pos_order", value := "no" }],
     rfl, rfl, by simp, rfl, rfl⟩

/-- A concrete POS cart with one fabric-component line. -/
def sampleCart : CartData :=
  { items :=
      [{ product_id := 10
         variation_id := 2
         qty := 3
         fms_components :=
           [{ fabric_id := "F1"
              fabric_name := "Linen"
              meters_per_unit := 3 / 2 }] }]
    customer := none
    orderType := "Alteration"
    measurements := "chest 40"
    charges := { alteration := 150 }
    paymentMethod := "upi" }

/-- C6 witness: the round-trip theorem applied to a concrete cart. -/
theorem buildPayload_normalize_roundtrip_witness :
    ∃ n, normalizeOrderForBaserow
        (simulateRemoteOrder (buildWooOrderPayload sampleCart) 9 "9" 450
          "" "2025-03-03T10:00:00" "" [] 0 []) true = some n ∧
      n.order_type = "Alteration" ∧ n.measurements = "chest 40" := by
  obtain ⟨n, h1, h2, h3, h4, h5, h6⟩ :=
    buildPayload_normalize_roundtrip sampleCart 9 "9" 450
      "" "2025-03-03T10:00:00" "" [] 0 []
  refine ⟨n, h1, ?_, ?_⟩
  · rw [h2]
    decide
  · rw [h3]
    decide
